import Mathlib

/-!
Verification of the keyed asynchronous resource cache
(`Resource` / `createResourceGroup` from the source).

The TypeScript class is shallowly embedded as a state machine:

* JS `null`/`undefined` is modelled by `Option.none`; a field of type
  `T | null` becomes `Option T`.
* A promise object is identified by a numeric handle (`Nat`), allocated
  from a per-resource counter `nextId`; the state of the single derived
  promise that `load` builds (`loader().then(...).catch(...)`) is kept in
  `promiseState`.
* The loader is opaque: a call to it either returns a promise
  (`LoaderBehavior.returns`) or throws synchronously
  (`LoaderBehavior.throwsSync e`).  The eventual settlement of the
  loader's promise is an external event (`settleResolve` runs the `then`
  callback, `settleReject` runs the `catch` callback).
* `loaderCalls` instruments how many times the loader has been invoked;
  `loaderId` records which loader function the constructor captured.
-/

/-- State of a JS promise; fulfilment values and rejection reasons may be
`null` (`Option.none`). -/
inductive PromiseState (V E : Type) where
  | pending
  | fulfilled (v : Option V)
  | rejected (e : Option E)
deriving Repr, DecidableEq

/-- What a call to the opaque loader function does: return a promise, or
throw synchronously before producing one. -/
inductive LoaderBehavior (E : Type) where
  | returns
  | throwsSync (e : E)
deriving Repr, DecidableEq

/-- The `Resource<T>` class state.

```
class Resource<T = unknown> {
  private error: Error | null = null;
  private promise: Promise<T> | null = null;
  private result: T | null = null;
  constructor(private readonly loader: () => Promise<T>) {}
  ...
}
```
-/
structure Resource (V E : Type) where
  error : Option E := none
  promise : Option Nat := none
  result : Option V := none
  promiseState : PromiseState V E := .pending
  loaderId : Nat := 0
  loaderCalls : Nat := 0
  nextId : Nat := 0
deriving Repr, DecidableEq

/-- `new Resource(loader)`: all three fields start `null`; only the loader
is captured. -/
def Resource.new (V E : Type) (lid : Nat) : Resource V E :=
  { loaderId := lid }

/--
```
load() {
  let promise = this.promise;
  if (promise == null) {
    promise = this.loader()
      .then((result) => { this.result = result; return result; })
      .catch((error) => { this.error = error; throw error; });
    this.promise = promise;
  }
  return promise;
}
```
If the stored promise is non-null it is returned unchanged.  Otherwise the
loader is invoked: if it throws synchronously the exception propagates and
`this.promise` is never assigned; if it returns a promise, the derived
`.then/.catch` promise gets a fresh handle which is stored and returned.
-/
def Resource.load (r : Resource V E) (beh : LoaderBehavior E) :
    Resource V E × Except E Nat :=
  match r.promise with
  | some p => (r, Except.ok p)
  | none =>
    match beh with
    | .throwsSync e =>
      ({ r with loaderCalls := r.loaderCalls + 1 }, Except.error e)
    | .returns =>
      ({ r with promise := some r.nextId,
                loaderCalls := r.loaderCalls + 1,
                nextId := r.nextId + 1 },
       Except.ok r.nextId)

/-- The `then` callback firing when the loader's promise fulfils with `v`
(possibly `null`): stores `this.result = v` and fulfils the derived
promise with the same value. -/
def Resource.settleResolve (r : Resource V E) (v : Option V) : Resource V E :=
  { r with result := v, promiseState := .fulfilled v }

/-- The `catch` callback firing when the loader's promise rejects with `e`
(possibly `null`): stores `this.error = e` and rethrows, rejecting the
derived promise with the same reason. -/
def Resource.settleReject (r : Resource V E) (e : Option E) : Resource V E :=
  { r with error := e, promiseState := .rejected e }

/--
```
get() {
  if (this.result != null) {
    return this.result;
  }
}
```
Returns `undefined` (modelled `none`) when the stored result is `null`.
-/
def Resource.get (r : Resource V E) : Option V :=
  match r.result with
  | some v => some v
  | none => none

/-- Outcome of `read()`: a returned value, a thrown error, or a thrown
promise field (which is `null` when `load` has never stored a promise). -/
inductive ReadOutcome (V E : Type) where
  | value (v : V)
  | throwError (e : E)
  | throwPromise (p : Option Nat)
deriving Repr, DecidableEq

/--
```
read(): T {
  if (this.result != null) {
    return this.result;
  } else if (this.error != null) {
    throw this.error;
  } else {
    throw this.promise;
  }
}
```
-/
def Resource.read (r : Resource V E) : ReadOutcome V E :=
  match r.result with
  | some v => .value v
  | none =>
    match r.error with
    | some e => .throwError e
    | none => .throwPromise r.promise

/-- Iterate `load` (discarding the returned handles) `n` times. -/
def Resource.loadIter (beh : LoaderBehavior E) :
    Nat → Resource V E → Resource V E
  | 0, r => r
  | n + 1, r => Resource.loadIter beh n (r.load beh).fst

/-- What a holder of handle `p` observes once the derived promise settles:
resources have a single derived promise, so observation of any valid
handle is its `promiseState`. -/
def Resource.observe (r : Resource V E) (p : Nat) : PromiseState V E :=
  match r.promise with
  | some q => if p = q then r.promiseState else .pending
  | none => .pending

/-- An interleaved history of operations on one Resource: `load` calls by
any number of callers, and the (at most one) settlement of the loader's
promise delivered by the event loop. -/
inductive Event (V E : Type) where
  | load (beh : LoaderBehavior E)
  | settleResolve (v : Option V)
  | settleReject (e : Option E)
deriving Repr, DecidableEq

/-- `true` for loaders honouring the declared type `() => Promise<T>`
(no synchronous throw). -/
def Event.wellTypedB : Event V E → Bool
  | .load (.throwsSync _) => false
  | _ => true

/-- Run a history of events, collecting the handle (or synchronously
thrown error) each `load` call returned to its caller. -/
def run : List (Event V E) → Resource V E → Resource V E × List (Except E Nat)
  | [], r => (r, [])
  | Event.load beh :: rest, r =>
    let step := r.load beh
    let rec2 := run rest step.fst
    (rec2.fst, step.snd :: rec2.snd)
  | Event.settleResolve v :: rest, r => run rest (r.settleResolve v)
  | Event.settleReject e :: rest, r => run rest (r.settleReject e)

/-- Number of `load` calls in a history. -/
def countLoads : List (Event V E) → Nat
  | [] => 0
  | Event.load _ :: rest => countLoads rest + 1
  | _ :: rest => countLoads rest

/-!
The registry:

```
export const createResourceGroup = () => {
  const resources = new Map<string, Resource>();
  return <T>(id: string, loader: () => Promise<T>): Resource<T> => {
    console.log(id);
    let resource = resources.get(id);
    if (resource == null) {
      resource = new Resource<T>(loader);
      resources.set(id, resource);
    }
    return resource as Resource<T>;
  };
};
```

Resource instances are identified by their index in `store`; the `Map` is
an association list from keys to instance ids.  `console.log` is a
synchronous diagnostic with no effect on the model.
-/

/-- `Map.get` on the key table. -/
def lookupKey : List (String × Nat) → String → Option Nat
  | [], _ => none
  | (k, rid) :: rest, k2 => if k2 = k then some rid else lookupKey rest k2

/-- The state of one `createResourceGroup` registry. -/
structure GroupWorld (V E : Type) where
  table : List (String × Nat) := []
  store : List (Resource V E) := []
deriving Repr

/-- The fresh registry returned by `createResourceGroup()`. -/
def GroupWorld.empty (V E : Type) : GroupWorld V E := {}

/-- The closure returned by `createResourceGroup`: look up `id`; if absent
construct `new Resource(loader)`, store it, and return it; if present
return the existing instance (the supplied loader is dropped). -/
def GroupWorld.get (g : GroupWorld V E) (id : String) (lid : Nat) :
    GroupWorld V E × Nat :=
  match lookupKey g.table id with
  | some rid => (g, rid)
  | none =>
    ({ table := (id, g.store.length) :: g.table,
       store := g.store ++ [Resource.new V E lid] }, g.store.length)

/-- Run a sequence of registry `get` calls, collecting the returned
instance ids. -/
def runGets : List (String × Nat) → GroupWorld V E → GroupWorld V E × List Nat
  | [], g => (g, [])
  | (id, lid) :: rest, g =>
    let step := g.get id lid
    let rec2 := runGets rest step.fst
    (rec2.fst, step.snd :: rec2.snd)

/-- Total number of loader invocations performed by the registry's
resources. -/
def GroupWorld.totalCalls (g : GroupWorld V E) : Nat :=
  (g.store.map Resource.loaderCalls).sum

/-! ### Basic lemmas about the Resource state machine -/

/-- Once the promise field is non-null, `load` returns the stored handle
and changes nothing (in particular the loader is not invoked). -/
theorem Resource.load_stable (r : Resource V E) (p : Nat)
    (beh : LoaderBehavior E) (h : r.promise = some p) :
    r.load beh = (r, Except.ok p) := by
  simp [Resource.load, h]

/-- Iterating `load` on a resource with a stored promise is the
identity. -/
theorem Resource.loadIter_stable (r : Resource V E) (p : Nat)
    (beh : LoaderBehavior E) (h : r.promise = some p) (n : Nat) :
    Resource.loadIter beh n r = r := by
  induction n with
  | zero => rfl
  | succ n ih => simp [Resource.loadIter, Resource.load_stable r p beh h, ih]

/-- C9 (implicit): on a Resource on which `load` was never called, `read`
throws the `null` stored in the promise field: a null not-ready signal
with no handle to wait on, not a distinguishable caller-misuse error and
not a waitable handle. -/
theorem c9_read_unstarted_throws_null (V E : Type) (lid : Nat) :
    (Resource.new V E lid).read = ReadOutcome.throwPromise none ∧
    (∀ p : Nat, (Resource.new V E lid).read ≠ ReadOutcome.throwPromise (some p)) ∧
    (∀ e : E, (Resource.new V E lid).read ≠ ReadOutcome.throwError e) ∧
    (∀ v : V, (Resource.new V E lid).read ≠ ReadOutcome.value v) := by
  refine ⟨rfl, ?_, ?_, ?_⟩ <;>
    · intro x h
      simp [Resource.read, Resource.new] at h

/-- C10 (implicit): a loader that throws synchronously (instead of
returning a promise) has its exception propagated by `load`, the promise
field stays `null`, and a second `load` invokes the loader again — the
at-most-once invariant only holds for promise-returning loaders. -/
theorem c10_sync_throw_leaves_unstarted (V E : Type) (lid : Nat) (e : E) :
    ((Resource.new V E lid).load (.throwsSync e)).snd = Except.error e ∧
    ((Resource.new V E lid).load (.throwsSync e)).fst.promise = none ∧
    ((Resource.new V E lid).load (.throwsSync e)).fst.error = none ∧
    ((Resource.new V E lid).load (.throwsSync e)).fst.result = none ∧
    ((Resource.new V E lid).load (.throwsSync e)).fst.loaderCalls = 1 ∧
    ∀ beh2 : LoaderBehavior E,
      (((Resource.new V E lid).load (.throwsSync e)).fst.load beh2).fst.loaderCalls = 2 := by
  refine ⟨rfl, rfl, rfl, rfl, rfl, ?_⟩
  intro beh2
  cases beh2 <;> rfl

/-- C5: `read` on a Pending resource (load called, loader promise not yet
settled) throws the stored in-flight handle itself — a not-ready signal;
it is neither a returned value (no default/null masquerading as success)
nor a thrown error. -/
theorem c5_read_pending_not_ready (V E : Type) (r : Resource V E) (p : Nat)
    (hres : r.result = none) (herr : r.error = none) (hp : r.promise = some p) :
    r.read = ReadOutcome.throwPromise (some p) ∧
    (∀ v : V, r.read ≠ ReadOutcome.value v) ∧
    (∀ e : E, r.read ≠ ReadOutcome.throwError e) := by
  refine ⟨by simp [Resource.read, hres, herr, hp], ?_, ?_⟩ <;>
    · intro x h
      simp [Resource.read, hres, herr, hp] at h

/-- C5 witness: the resource obtained by one `load` on a fresh Resource
is Pending and `read` throws its handle. -/
theorem c5_read_pending_not_ready_witness :
    (((Resource.new Nat Nat 0).load .returns).fst.result = none ∧
     ((Resource.new Nat Nat 0).load .returns).fst.error = none ∧
     ((Resource.new Nat Nat 0).load .returns).fst.promise = some 0) ∧
    ((Resource.new Nat Nat 0).load .returns).fst.read
      = ReadOutcome.throwPromise (some 0) :=
  ⟨⟨rfl, rfl, rfl⟩,
   (c5_read_pending_not_ready Nat Nat _ 0 rfl rfl rfl).1⟩

/-- C6: `get` is a non-suspending peek: it returns the stored value
exactly on a Resolved resource, and an absent result on Unstarted,
Pending and Rejected resources.  It is embedded as a pure function
because the source method mutates nothing, calls no loader, and contains
no `throw`. -/
theorem c6_get_nonsuspending_peek (V E : Type) (lid : Nat) (v : V) (e : E) :
    (Resource.new V E lid).get = none ∧
    ((Resource.new V E lid).load .returns).fst.get = none ∧
    (((Resource.new V E lid).load .returns).fst.settleResolve (some v)).get
      = some v ∧
    (((Resource.new V E lid).load .returns).fst.settleReject (some e)).get
      = none ∧
    (∀ r : Resource V E, r.get = r.result) := by
  refine ⟨rfl, rfl, rfl, rfl, ?_⟩
  intro r
  cases h : r.result <;> simp [Resource.get, h]

/-- C8 (implicit): a loader that resolves with `null` (or `undefined`)
leaves the Resource forever indistinguishable from a Pending one at the
synchronous interface — `get` is absent and `read` throws the (already
fulfilled) stored promise on every call — because the code detects the
Resolved state by `this.result != null` rather than by a state tag. -/
theorem c8_null_resolution_looks_pending (V E : Type) (lid : Nat) :
    (((Resource.new V E lid).load .returns).fst.settleResolve none).promiseState
      = PromiseState.fulfilled none ∧
    (((Resource.new V E lid).load .returns).fst.settleResolve none).get = none ∧
    (((Resource.new V E lid).load .returns).fst.settleResolve none).read
      = ReadOutcome.throwPromise (some 0) ∧
    (((Resource.new V E lid).load .returns).fst.settleResolve none).get
      = ((Resource.new V E lid).load .returns).fst.get ∧
    (((Resource.new V E lid).load .returns).fst.settleResolve none).read
      = ((Resource.new V E lid).load .returns).fst.read ∧
    ∀ (n : Nat) (beh : LoaderBehavior E),
      Resource.loadIter beh n
        (((Resource.new V E lid).load .returns).fst.settleResolve none)
        = ((Resource.new V E lid).load .returns).fst.settleResolve none := by
  refine ⟨rfl, rfl, rfl, rfl, rfl, ?_⟩
  intro n beh
  exact Resource.loadIter_stable _ 0 beh rfl n

/-- C3: on a Rejected resource, every `read` throws the original stored
error (the spec's `ResourceFailed`/`LoaderFailed` carrying the cause),
identically and indefinitely, and `load` returns the existing handle
without re-invoking the loader, so interleaved `load`s never change the
observed error. -/
theorem c3_rejected_replays_error (V E : Type) (r : Resource V E) (e : E)
    (p : Nat) (hres : r.result = none) (herr : r.error = some e)
    (hp : r.promise = some p) :
    r.read = ReadOutcome.throwError e ∧
    (∀ beh, r.load beh = (r, Except.ok p)) ∧
    (∀ (n : Nat) (beh : LoaderBehavior E),
      (Resource.loadIter beh n r).read = ReadOutcome.throwError e ∧
      (Resource.loadIter beh n r).loaderCalls = r.loaderCalls) := by
  have hread : r.read = ReadOutcome.throwError e := by
    simp [Resource.read, hres, herr]
  refine ⟨hread, fun beh => Resource.load_stable r p beh hp, ?_⟩
  intro n beh
  rw [Resource.loadIter_stable r p beh hp n]
  exact ⟨hread, rfl⟩

/-- C3 witness: a fresh Resource loaded and then rejected with error `7`
replays `throwError 7`. -/
theorem c3_rejected_replays_error_witness :
    ((((Resource.new Nat Nat 0).load .returns).fst.settleReject (some 7)).result
        = none ∧
     (((Resource.new Nat Nat 0).load .returns).fst.settleReject (some 7)).error
        = some 7 ∧
     (((Resource.new Nat Nat 0).load .returns).fst.settleReject (some 7)).promise
        = some 0) ∧
    (((Resource.new Nat Nat 0).load .returns).fst.settleReject (some 7)).read
      = ReadOutcome.throwError 7 :=
  ⟨⟨rfl, rfl, rfl⟩,
   (c3_rejected_replays_error Nat Nat _ 7 0 rfl rfl rfl).1⟩

/-- C4: on a resource Resolved with value `v`, `read` returns `v`, `get`
returns `v`, every further `load` returns the stored handle (whose
derived promise is fulfilled with `v`) without touching the state, and
iterating `load` any number of times changes nothing — both operations
are idempotent after resolution and the loader is never re-invoked. -/
theorem c4_resolved_idempotent (V E : Type) (r : Resource V E) (v : V)
    (p : Nat) (hres : r.result = some v) (hp : r.promise = some p)
    (hps : r.promiseState = PromiseState.fulfilled (some v)) :
    r.read = ReadOutcome.value v ∧
    r.get = some v ∧
    (∀ beh, r.load beh = (r, Except.ok p)) ∧
    r.observe p = PromiseState.fulfilled (some v) ∧
    (∀ (n : Nat) (beh : LoaderBehavior E), Resource.loadIter beh n r = r) := by
  refine ⟨by simp [Resource.read, hres], by simp [Resource.get, hres],
    fun beh => Resource.load_stable r p beh hp,
    by simp [Resource.observe, hp, hps],
    fun n beh => Resource.loadIter_stable r p beh hp n⟩

/-- C4 witness: a fresh Resource loaded and resolved with `5` serves `5`
from `read`, `get` and `load` forever. -/
theorem c4_resolved_idempotent_witness :
    ((((Resource.new Nat Nat 0).load .returns).fst.settleResolve (some 5)).result
        = some 5 ∧
     (((Resource.new Nat Nat 0).load .returns).fst.settleResolve (some 5)).promise
        = some 0 ∧
     (((Resource.new Nat Nat 0).load .returns).fst.settleResolve (some 5)).promiseState
        = PromiseState.fulfilled (some 5)) ∧
    (((Resource.new Nat Nat 0).load .returns).fst.settleResolve (some 5)).read
      = ReadOutcome.value 5 :=
  ⟨⟨rfl, rfl, rfl⟩,
   (c4_resolved_idempotent Nat Nat _ 5 0 rfl rfl rfl).1⟩

/-- Once the first `load` has stored handle `0` (one loader invocation,
id counter at `1`), any further history keeps those three facts, and
every further `load` call hands its caller handle `0`. -/
theorem run_after_first_load (evts : List (Event V E)) (r : Resource V E)
    (hp : r.promise = some 0) (hc : r.loaderCalls = 1) (hn : r.nextId = 1) :
    (run evts r).fst.promise = some 0 ∧
    (run evts r).fst.loaderCalls = 1 ∧
    (run evts r).fst.nextId = 1 ∧
    (∀ o ∈ (run evts r).snd, o = Except.ok 0) ∧
    (run evts r).snd.length = countLoads evts := by
  induction evts generalizing r with
  | nil => simpa [run, countLoads] using ⟨hp, hc, hn⟩
  | cons ev rest ih =>
    cases ev with
    | load beh =>
      have hstep : r.load beh = (r, Except.ok 0) :=
        Resource.load_stable r 0 beh hp
      have ih2 := ih r hp hc hn
      simp only [run, hstep]
      refine ⟨ih2.1, ih2.2.1, ih2.2.2.1, ?_, ?_⟩
      · intro o ho
        rcases List.mem_cons.mp ho with h | h
        · exact h
        · exact ih2.2.2.2.1 o h
      · simpa [countLoads] using ih2.2.2.2.2
    | settleResolve v =>
      have ih2 := ih (r.settleResolve v) hp hc hn
      simpa [run, countLoads] using ih2
    | settleReject e =>
      have ih2 := ih (r.settleReject e) hp hc hn
      simpa [run, countLoads] using ih2

/-- From a fresh Resource, a history whose loaders honour the promise
type invokes the loader at most once (exactly once as soon as any `load`
occurred), and every `load` call returns handle `0`. -/
theorem run_from_fresh (evts : List (Event V E)) (r : Resource V E)
    (hwt : ∀ ev ∈ evts, Event.wellTypedB ev = true)
    (hp : r.promise = none) (hc : r.loaderCalls = 0) (hn : r.nextId = 0) :
    (run evts r).fst.loaderCalls ≤ 1 ∧
    ((run evts r).snd ≠ [] →
      (run evts r).fst.loaderCalls = 1 ∧ (run evts r).fst.promise = some 0) ∧
    (∀ o ∈ (run evts r).snd, o = Except.ok 0) ∧
    (run evts r).snd.length = countLoads evts := by
  induction evts generalizing r with
  | nil => simp [run, countLoads, hc]
  | cons ev rest ih =>
    cases ev with
    | load beh =>
      cases beh with
      | throwsSync e =>
        have := hwt _ (List.mem_cons_self _ _)
        simp [Event.wellTypedB] at this
      | returns =>
        have h2p : (r.load .returns).fst.promise = some 0 := by
          simp [Resource.load, hp, hn]
        have h2c : (r.load .returns).fst.loaderCalls = 1 := by
          simp [Resource.load, hp, hc]
        have h2n : (r.load .returns).fst.nextId = 1 := by
          simp [Resource.load, hp, hn]
        have hsnd : (r.load .returns).snd = Except.ok 0 := by
          simp [Resource.load, hp, hn]
        have hA := run_after_first_load rest (r.load .returns).fst h2p h2c h2n
        simp only [run]
        refine ⟨hA.2.1.le, fun _ => ⟨hA.2.1, hA.1⟩, ?_, ?_⟩
        · intro o ho
          rcases List.mem_cons.mp ho with h | h
          · rw [h, hsnd]
          · exact hA.2.2.2.1 o h
        · simpa [countLoads] using hA.2.2.2.2
    | settleResolve v =>
      have ih2 := ih (r.settleResolve v)
        (fun ev hev => hwt ev (List.mem_cons_of_mem _ hev)) hp hc hn
      simpa [run, countLoads] using ih2
    | settleReject e =>
      have ih2 := ih (r.settleReject e)
        (fun ev hev => hwt ev (List.mem_cons_of_mem _ hev)) hp hc hn
      simpa [run, countLoads] using ih2

/-- C1: single-flight.  In any interleaved history of `load` calls and the
loader-promise settlement on a fresh Resource (the loader honouring its
`() => Promise<T>` type), the loader is invoked at most once — exactly
once as soon as any `load` call happened, i.e. only the first call
invokes it — every one of the N `load` calls is answered with the same
shared handle `0`, and any two callers holding returned handles observe
the same settlement outcome (the same resolved value or rejected
error). -/
theorem c1_single_flight (V E : Type) (lid : Nat) (evts : List (Event V E))
    (hwt : ∀ ev ∈ evts, Event.wellTypedB ev = true) :
    (run evts (Resource.new V E lid)).fst.loaderCalls ≤ 1 ∧
    ((run evts (Resource.new V E lid)).snd ≠ [] →
      (run evts (Resource.new V E lid)).fst.loaderCalls = 1) ∧
    (run evts (Resource.new V E lid)).snd.length = countLoads evts ∧
    (∀ o ∈ (run evts (Resource.new V E lid)).snd, o = Except.ok 0) ∧
    (∀ p1 p2 : Nat,
      Except.ok p1 ∈ (run evts (Resource.new V E lid)).snd →
      Except.ok p2 ∈ (run evts (Resource.new V E lid)).snd →
      (run evts (Resource.new V E lid)).fst.observe p1
        = (run evts (Resource.new V E lid)).fst.observe p2) := by
  have h := run_from_fresh evts (Resource.new V E lid) hwt rfl rfl rfl
  refine ⟨h.1, fun hne => (h.2.1 hne).1, h.2.2.2, h.2.2.1, ?_⟩
  intro p1 p2 h1 h2
  have e1 := h.2.2.1 _ h1
  have e2 := h.2.2.1 _ h2
  obtain rfl : p1 = 0 := by simpa using e1
  obtain rfl : p2 = 0 := by simpa using e2
  rfl

/-- C1 witness: three `load` calls interleaved with the resolution of the
loader promise on a fresh Resource. -/
theorem c1_single_flight_witness :
    (∀ ev ∈ ([Event.load LoaderBehavior.returns,
              Event.load LoaderBehavior.returns,
              Event.settleResolve (some 5),
              Event.load LoaderBehavior.returns] : List (Event Nat Nat)),
      Event.wellTypedB ev = true) ∧
    (run [Event.load LoaderBehavior.returns,
          Event.load LoaderBehavior.returns,
          Event.settleResolve (some 5),
          Event.load LoaderBehavior.returns]
        (Resource.new Nat Nat 0)).fst.loaderCalls ≤ 1 :=
  ⟨by decide,
   (c1_single_flight Nat Nat 0
      [Event.load LoaderBehavior.returns,
       Event.load LoaderBehavior.returns,
       Event.settleResolve (some 5),
       Event.load LoaderBehavior.returns] (by decide)).1⟩

/-! ### Lemmas about the registry -/

/-- On a hit, registry `get` returns the stored instance and leaves the
registry unchanged. -/
theorem group_get_hit (g : GroupWorld V E) (k : String) (l rid : Nat)
    (h : lookupKey g.table k = some rid) : g.get k l = (g, rid) := by
  simp [GroupWorld.get, h]

/-- On a miss, registry `get` constructs, stores and returns a fresh
Resource built from the supplied loader. -/
theorem group_get_miss (g : GroupWorld V E) (k : String) (l : Nat)
    (h : lookupKey g.table k = none) :
    g.get k l = ({ table := (k, g.store.length) :: g.table,
                   store := g.store ++ [Resource.new V E l] },
                 g.store.length) := by
  simp [GroupWorld.get, h]

/-- A key already mapped to instance `rid` keeps that mapping across any
further registry `get`. -/
theorem lookupKey_get_persists (g : GroupWorld V E) (k k2 : String)
    (l rid : Nat) (h : lookupKey g.table k = some rid) :
    lookupKey ((g.get k2 l).fst).table k = some rid := by
  cases h2 : lookupKey g.table k2 with
  | some r2 => simp [GroupWorld.get, h2, h]
  | none =>
    by_cases hk : k = k2
    · subst hk
      rw [h] at h2
      exact Option.noConfusion h2
    · simp [GroupWorld.get, h2, lookupKey, hk, h]

/-- A key already mapped to instance `rid` keeps that mapping across any
sequence of registry `get` calls. -/
theorem runGets_persists (ops : List (String × Nat)) (g : GroupWorld V E)
    (k : String) (rid : Nat) (h : lookupKey g.table k = some rid) :
    lookupKey (runGets ops g).fst.table k = some rid := by
  induction ops generalizing g with
  | nil => simpa [runGets] using h
  | cons op rest ih =>
    obtain ⟨k2, l⟩ := op
    simpa [runGets] using
      ih ((g.get k2 l).fst) (lookupKey_get_persists g k k2 l rid h)

/-- Registry `get` invokes no loader: if no stored resource has ever had
its loader invoked, the same holds after a `get`. -/
theorem get_preserves_allZero (g : GroupWorld V E) (k : String) (l : Nat)
    (h : ∀ res ∈ g.store, res.loaderCalls = 0) :
    ∀ res ∈ ((g.get k l).fst).store, res.loaderCalls = 0 := by
  intro res hres
  cases h2 : lookupKey g.table k with
  | some rid =>
    simp only [GroupWorld.get, h2] at hres
    exact h res hres
  | none =>
    simp only [GroupWorld.get, h2] at hres
    rcases List.mem_append.mp hres with hm | hm
    · exact h res hm
    · rw [List.mem_singleton.mp hm]
      rfl

/-- Registry `get` invokes no loader, through any sequence of calls. -/
theorem runGets_preserves_allZero (ops : List (String × Nat))
    (g : GroupWorld V E) (h : ∀ res ∈ g.store, res.loaderCalls = 0) :
    ∀ res ∈ (runGets ops g).fst.store, res.loaderCalls = 0 := by
  induction ops generalizing g with
  | nil => simpa [runGets] using h
  | cons op rest ih =>
    obtain ⟨k2, l⟩ := op
    intro res hres
    simp only [runGets] at hres
    exact ih ((g.get k2 l).fst) (get_preserves_allZero g k2 l h) res hres

/-- A registry `get` leaves the total number of loader invocations
unchanged. -/
theorem get_totalCalls (g : GroupWorld V E) (k : String) (l : Nat) :
    ((g.get k l).fst).totalCalls = g.totalCalls := by
  cases h2 : lookupKey g.table k with
  | some rid => simp [GroupWorld.get, h2]
  | none =>
    simp [GroupWorld.get, h2, GroupWorld.totalCalls, Resource.new]

/-- C2: registry uniqueness.  `get(k, loaderA)` followed by
`get(k, loaderB)` returns the identical Resource instance and leaves the
registry untouched; the instance stored under `k` was constructed with
`loaderA` and its loader was never invoked by the registry (`loaderB` is
never even retained); and the key keeps that one instance across any
further sequence of `get` calls — at most one Resource ever exists per
key. -/
theorem c2_registry_uniqueness (V E : Type) (g : GroupWorld V E) (k : String)
    (la lb : Nat) (habsent : lookupKey g.table k = none) :
    ((g.get k la).fst.get k lb).snd = (g.get k la).snd ∧
    ((g.get k la).fst.get k lb).fst = (g.get k la).fst ∧
    ((g.get k la).fst).store[(g.get k la).snd]? = some (Resource.new V E la) ∧
    ((g.get k la).fst.get k lb).fst.totalCalls = g.totalCalls ∧
    (∀ ops : List (String × Nat),
      lookupKey (runGets ops ((g.get k la).fst)).fst.table k
        = some ((g.get k la).snd)) := by
  have hmiss := group_get_miss g k la habsent
  have hlook : lookupKey ((g.get k la).fst).table k = some ((g.get k la).snd) := by
    rw [hmiss]
    simp [lookupKey]
  have hsame := group_get_hit ((g.get k la).fst) k lb _ hlook
  refine ⟨by rw [hsame], by rw [hsame], ?_, ?_, ?_⟩
  · rw [hmiss]
    simp
  · rw [hsame]
    exact get_totalCalls g k la
  · intro ops
    exact runGets_persists ops _ k _ hlook

/-- C2 witness: an empty registry asked twice for key `"k"` with loaders
`1` then `2`. -/
theorem c2_registry_uniqueness_witness :
    lookupKey (GroupWorld.empty Nat Nat).table "k" = none ∧
    (((GroupWorld.empty Nat Nat).get "k" 1).fst.get "k" 2).snd
      = ((GroupWorld.empty Nat Nat).get "k" 1).snd :=
  ⟨rfl, (c2_registry_uniqueness Nat Nat (GroupWorld.empty Nat Nat) "k" 1 2 rfl).1⟩

/-- C7: registry `get` performs no asynchronous work and never starts a
load: it either returns the registry unchanged or adds one freshly
constructed Resource whose loader has never been invoked, the total
number of loader invocations is unchanged, and after any sequence of
`get` calls on a fresh registry every stored resource still has zero
loader invocations — loading happens only through a separate `load()` on
the returned handle. -/
theorem c7_get_never_invokes_loader (V E : Type) (g : GroupWorld V E)
    (k : String) (l : Nat) :
    ((g.get k l).fst.store = g.store ∨
      (g.get k l).fst.store = g.store ++ [Resource.new V E l]) ∧
    (g.get k l).fst.totalCalls = g.totalCalls ∧
    (Resource.new V E l).loaderCalls = 0 ∧
    (∀ ops : List (String × Nat),
      ∀ res ∈ (runGets ops (GroupWorld.empty V E)).fst.store,
        res.loaderCalls = 0) := by
  refine ⟨?_, get_totalCalls g k l, rfl, ?_⟩
  · cases h2 : lookupKey g.table k with
    | some rid =>
      left
      simp [GroupWorld.get, h2]
    | none =>
      right
      simp [GroupWorld.get, h2]
  · intro ops
    refine runGets_preserves_allZero ops (GroupWorld.empty V E) ?_
    intro res h
    simp [GroupWorld.empty] at h

/-- C6 witness: a Resource resolved with `5` peeks as `some 5`. -/
theorem c6_get_nonsuspending_peek_witness :
    (((Resource.new Nat Nat 0).load .returns).fst.settleResolve (some 5)).get
      = some 5 :=
  (c6_get_nonsuspending_peek Nat Nat 0 5 9).2.2.1

/-- C7 witness: one `get` on a fresh registry leaves the total loader
invocation count at zero. -/
theorem c7_get_never_invokes_loader_witness :
    ((GroupWorld.empty Nat Nat).get "a" 3).fst.totalCalls
      = (GroupWorld.empty Nat Nat).totalCalls :=
  (c7_get_never_invokes_loader Nat Nat (GroupWorld.empty Nat Nat) "a" 3).2.1

/-- C8 witness: a Resource whose loader resolved with `null` still throws
its (settled) promise from `read`. -/
theorem c8_null_resolution_looks_pending_witness :
    (((Resource.new Nat Nat 0).load .returns).fst.settleResolve none).read
      = ReadOutcome.throwPromise (some 0) :=
  (c8_null_resolution_looks_pending Nat Nat 0).2.2.1

/-- C9 witness: `read` on a never-loaded Resource throws `null`. -/
theorem c9_read_unstarted_throws_null_witness :
    (Resource.new Nat Nat 0).read = ReadOutcome.throwPromise none :=
  (c9_read_unstarted_throws_null Nat Nat 0).1

/-- C10 witness: a loader throwing `3` synchronously has the exception
propagated by `load`. -/
theorem c10_sync_throw_leaves_unstarted_witness :
    ((Resource.new Nat Nat 0).load (.throwsSync 3)).snd = Except.error 3 :=
  (c10_sync_throw_leaves_unstarted Nat Nat 0 3).1
